import Mathlib

/-!
Verification of `nsx-install.py`, a configuration-generation and
orchestration-sequencing wrapper.  The script reads two flat key-value text
files (factory defaults and user configuration), validates uplink-count
constraints, assembles a nested configuration document (written as JSON for
the downstream automation runner), and invokes a fixed sequence of external
automation jobs.

This file is a shallow embedding of that script:
  * Python strings are Lean `String`s; the string helpers used by the script
    (`str.strip`, `str.split(sep)`, `str.strip('"')`, `str.lower`, `int(...)`,
    `range(...)`) are modelled on `List Char`.
  * Python dicts that hold parsed key-value files are modelled as association
    lists with overwrite-on-insert semantics (`dictSet`), matching insertion
    order; in the generator the two datasets are also consumed through total
    lookup functions `String → String` (the claims quantify over
    configurations with all consulted keys present).
  * The nested document built by `generate_vars_file` is a JSON-like tree
    `JVal`, with object fields listed in Python dict insertion order (the
    order `json.dump` serialises).
  * `sys.exit(n)` and uncaught exceptions (`ValueError` from `int`,
    `IndexError` from `items[1]`) are modelled with `Except`/`Option`.
  * `get_vds_uuid` performs a network lookup; per the specification it is
    treated as a fixed input string to the generator.
-/

set_option autoImplicit false
set_option maxRecDepth 100000

namespace NsxInstall

/-! ### Python string primitives -/

/-- Characters stripped by Python `str.strip()` (ASCII whitespace). -/
def isPyWs (c : Char) : Bool :=
  c = ' ' || c = '\t' || c = '\n' || c = '\r' || c = '\x0b' || c = '\x0c'

/-- Drop characters satisfying `p` from both ends, as Python `str.strip(chars)`. -/
def stripCore (p : Char → Bool) (l : List Char) : List Char :=
  ((l.dropWhile p).reverse.dropWhile p).reverse

/-- Python `str.strip()` on a string. -/
def pyStrip (s : String) : String := ⟨stripCore isPyWs s.data⟩

/-- Python `str.strip('"')`. -/
def pyStripQuotes (s : String) : String := ⟨stripCore (fun c => c = '"') s.data⟩

/-- Python `str.split(sep)` for a one-character separator: splits on every
occurrence, keeping empty pieces; the result is never the empty list. -/
def splitCh (sep : Char) : List Char → List (List Char)
  | [] => [[]]
  | c :: cs =>
    match splitCh sep cs with
    | [] => [[]]
    | g :: gs => if c = sep then [] :: g :: gs else (c :: g) :: gs

/-- Python `str.split(sep)` lifted to `String`. -/
def pySplit (s : String) (sep : Char) : List String :=
  (splitCh sep s.data).map (fun l => ⟨l⟩)

/-- Iterating over an opened text file yields its newline-separated lines
(the trailing newline is immediately removed by the script's `strip`). -/
def splitLines (s : String) : List String :=
  (splitCh '\n' s.data).map (fun l => ⟨l⟩)

/-- Python `str.startswith('#')`. -/
def startsWithHash (s : String) : Bool :=
  match s.data with
  | c :: _ => c = '#'
  | [] => false

/-- Python `str.lower()` (ASCII). -/
def pyLower (s : String) : String := ⟨s.data.map Char.toLower⟩

/-- Digit run of a Python decimal integer literal after the optional sign:
digits, with single underscores allowed between digits. Accumulates into the
running value `n`. -/
def pyDigitsAux : List Char → Nat → Option Nat
  | [], n => some n
  | '_' :: c :: cs, n =>
    if c.isDigit then pyDigitsAux cs (n * 10 + (c.toNat - 48)) else none
  | ['_'], _ => none
  | c :: cs, n =>
    if c.isDigit then pyDigitsAux cs (n * 10 + (c.toNat - 48)) else none

/-- Python `int(...)` on the already-stripped character list: optional sign,
then at least one digit with single underscores allowed between digits. -/
def pyIntOfChars : List Char → Option Int
  | '+' :: c :: cs =>
    if c.isDigit then (pyDigitsAux cs (c.toNat - 48)).map Int.ofNat else none
  | '-' :: c :: cs =>
    if c.isDigit then (pyDigitsAux cs (c.toNat - 48)).map (fun n => -(n : Int)) else none
  | c :: cs =>
    if c.isDigit then (pyDigitsAux cs (c.toNat - 48)).map Int.ofNat else none
  | [] => none

/-- Python `int(s)`: strips surrounding whitespace, then parses a signed
decimal literal; raises `ValueError` (here: `none`) otherwise. -/
def pyInt (s : String) : Option Int := pyIntOfChars (pyStrip s).data

/-- Python `range(n)` for a possibly negative bound: empty when `n ≤ 0`. -/
def pyRange (n : Int) : List Nat := List.range n.toNat

/-! ### Python dicts holding the parsed key-value files -/

/-- Assignment `d[k] = v` on a dict kept as an association list in insertion order:
overwrites an existing binding in place, otherwise appends. -/
def dictSet (m : List (String × String)) (k v : String) : List (String × String) :=
  if m.any (fun p => p.1 = k) then
    m.map (fun p => if p.1 = k then (k, v) else p)
  else
    m ++ [(k, v)]

/-- Lookup `d[k]` as an `Option`. -/
def dictGet? (m : List (String × String)) (k : String) : Option String :=
  (m.find? (fun p => p.1 = k)).map (fun p => p.2)

/-! ### `txt_to_json`: parsing a flat key-value file -/

/-- One iteration of the loop in `txt_to_json`: strip the line; skip it when
blank or a `#` comment; otherwise split on `'='` and bind
`items[0].strip()` to `items[1].strip().strip('"')`.  A non-blank,
non-comment line with no `'='` has a single-element `items`, so `items[1]`
raises `IndexError` (modelled as `none`). -/
def parseLine (m : List (String × String)) (line : String) :
    Option (List (String × String)) :=
  if startsWithHash (pyStrip line) || pyStrip line = "" then
    some m
  else
    match splitCh '=' (pyStrip line).data with
    | k :: v :: _ => some (dictSet m ⟨stripCore isPyWs k⟩
        (pyStripQuotes ⟨stripCore isPyWs v⟩))
    | _ => none

/-- The loop of `txt_to_json` over the file's lines. -/
def parseLines (m : List (String × String)) :
    List String → Option (List (String × String))
  | [] => some m
  | line :: rest =>
    match parseLine m line with
    | some m' => parseLines m' rest
    | none => none

/-- The function `txt_to_json(filename)` as a function of the file's contents. -/
def txt_to_json (s : String) : Option (List (String × String)) :=
  parseLines [] (splitLines s)

/-! ### `writeln` and `reset_defaults` -/

/-- The text `writeln(fd, key, value, comment, example)` appends to the file:
a blank line, a `# comment` line, an optional `# Example:` line, and — when
`key` is nonempty — the line `key = "value"`. -/
def writeln (key value comment exampleText : String) : String :=
  "\n# " ++ comment ++ "\n" ++
  (if exampleText ≠ "" then "# Example: " ++ exampleText ++ "\n" else "") ++
  (if key = "" then "" else key ++ " = \"" ++ value ++ "\"\n")

/-- The `(key, value, comment)` triples passed to the 22 key-carrying
`writeln` calls of `reset_defaults`, in source order. -/
def defaultEntries : List (String × String × String) :=
  [("nsx_username", "admin", "NSX Username"),
   ("validate_certs", "false", "Accept self-signed certs"),
   ("nsx_vcenter", "vSphere_NSX_deploy", "Display name of vCenter on which NSX will be deployed"),
   ("compute_manager_name", "vcenter", "Display Name on NSX Manager for the registered vCenter Server"),
   ("overlay_tz_name", "Overlay-TZ", "Overlay Transport Zone display name"),
   ("vlan_tz_name", "VLAN-TZ", "VLAN Transport Zone display name"),
   ("ip_pool_1_name", "Edge-TEP-IP-Pool", "IP Pool used by Edge Transport Nodes"),
   ("ip_pool_2_name", "Host-TEP-IP-Pool", "IP Pool used by Host Transport Nodes."),
   ("edge_form_factor", "LARGE", "VM form factor for Edge Node deployments. Defaults to LARGE. Other choices are SMALL and MEDIUM"),
   ("edge1_host_switch_name", "nvds1", "Host Switch Name on Edge1"),
   ("edge1_display_name", "edge-01", "Display Name of Edge1 on NSX Manager"),
   ("edge2_host_switch_name", "nvds1", "Host Switch Name on Edge2"),
   ("edge2_display_name", "edge-02", "Display Name of Edge2 on NSX Manager"),
   ("edge_cluster_display_name", "Edge-Cluster", "Display name of the Edge Cluster"),
   ("edge_cluster_profile_binding", "nsx-default-edge-high-availability-profile", "Edge Cluster Profile Binding"),
   ("tier0_display_name", "vSphereK8sT0", "Tier0 display name"),
   ("host_switch_profile_name", "vSphereK8_uplink_profile", "Name of the Host Switch Uplink Profile"),
   ("host_switch_uplink1_name", "uplink-1", "Uplink1 Name used for Host switch teaming"),
   ("host_switch_uplink2_name", "uplink-2", "Uplink1 Name used for Host switch teaming"),
   ("host_switch_teaming_policy", "FAILOVER_ORDER", "Teaming policy. Choices are FAILOVER_ORDER, LOADBALANCE_SRCID or LOADBALANCE_SRC_MAC"),
   ("host_tnp_display_name", "vSphereK8_TNP", "Name of the Transport Node Profile configured on the Compute Clusters"),
   ("host_default_host_switch_profile", "nsx-default-uplink-hostswitch-profile", "Host Switch Profile used for Host Transport Node config")]

/-- A sequence of key-carrying `writeln` calls (none passes an example). -/
def writelnAll : List (String × String × String) → String
  | [] => ""
  | e :: es => writeln e.1 e.2.1 e.2.2 "" ++ writelnAll es

/-- The key-value pairs `reset_defaults` writes, in order. -/
def defaultPairs : List (String × String) :=
  [("nsx_username", "admin"),
   ("validate_certs", "false"),
   ("nsx_vcenter", "vSphere_NSX_deploy"),
   ("compute_manager_name", "vcenter"),
   ("overlay_tz_name", "Overlay-TZ"),
   ("vlan_tz_name", "VLAN-TZ"),
   ("ip_pool_1_name", "Edge-TEP-IP-Pool"),
   ("ip_pool_2_name", "Host-TEP-IP-Pool"),
   ("edge_form_factor", "LARGE"),
   ("edge1_host_switch_name", "nvds1"),
   ("edge1_display_name", "edge-01"),
   ("edge2_host_switch_name", "nvds1"),
   ("edge2_display_name", "edge-02"),
   ("edge_cluster_display_name", "Edge-Cluster"),
   ("edge_cluster_profile_binding", "nsx-default-edge-high-availability-profile"),
   ("tier0_display_name", "vSphereK8sT0"),
   ("host_switch_profile_name", "vSphereK8_uplink_profile"),
   ("host_switch_uplink1_name", "uplink-1"),
   ("host_switch_uplink2_name", "uplink-2"),
   ("host_switch_teaming_policy", "FAILOVER_ORDER"),
   ("host_tnp_display_name", "vSphereK8_TNP"),
   ("host_default_host_switch_profile", "nsx-default-uplink-hostswitch-profile")]

/-- The full text `reset_defaults()` writes to the defaults file: an opening
comment-only `writeln` (whose comment string itself ends in a newline), then
one `writeln` per entry of `defaultEntries` (none passes an `example`). -/
def reset_defaults : String :=
  writeln "" "" "Defaults\n" "" ++ writelnAll defaultEntries

/-! ### The nested configuration document -/

/-- JSON-like values: the shape of the nested document `generate_vars_file`
assembles and `json.dump` serialises (object fields kept in Python dict
insertion order). -/
inductive JVal where
  | s (v : String)
  | i (v : Int)
  | b (v : Bool)
  | arr (l : List JVal)
  | obj (l : List (String × JVal))

/-- Field lookup in an object value. -/
def JVal.getField : JVal → String → Option JVal
  | .obj l, k => (l.find? (fun p => p.1 = k)).map (fun p => p.2)
  | _, _ => none

/-- Index lookup in an array value. -/
def JVal.getIdx : JVal → Nat → Option JVal
  | .arr l, idx => l.get? idx
  | _, _ => none

/-- How a run of `generate_vars_file` can stop before writing the file:
`exit n` models `sys.exit(n)`, `valueError` an uncaught `ValueError` raised
by `int(...)` on a non-numeric string. -/
inductive GenErr where
  | exit (code : Nat)
  | valueError
deriving DecidableEq

/-- The pnics list built for an edge with `n` configured uplinks: the loop
`for i in range(n - 1)` appends a pnic whose fields are set for `i = 0` and
`i = 1` and left empty otherwise (unreachable once the `≤ 2` check passed). -/
def edgePnics (n : Int) : List JVal :=
  (pyRange (n - 1)).map (fun idx =>
    if idx = 0 then .obj [("device_name", .s "fp-eth0"), ("uplink_name", .s "uplink-1")]
    else if idx = 1 then .obj [("device_name", .s "fp-eth1"), ("uplink_name", .s "uplink-2")]
    else .obj [])

/-- The uplinks list built for the host transport-node profile with `n`
configured uplinks: the loop `for i in range(n)`. -/
def hostUplinks (n : Int) : List JVal :=
  (pyRange n).map (fun idx =>
    if idx = 0 then .obj [("vds_uplink_name", .s "Uplink 1"), ("uplink_name", .s "uplink-1")]
    else .obj [("vds_uplink_name", .s "Uplink 2"), ("uplink_name", .s "uplink-2")])

/-- One record of `additional_nodes` (the second and third manager nodes). -/
def additionalNode (hostname mgmtIp pfx datacenter cluster datastore portgroup
    vcenter vcUser vcPass : String) : JVal :=
  .obj [
    ("hostname", .s hostname),
    ("mgmt_ip", .s mgmtIp),
    ("prefix", .s pfx),
    ("datacenter", .s datacenter),
    ("cluster", .s cluster),
    ("datastore", .s datastore),
    ("portgroup", .s portgroup),
    ("vcenter", .s vcenter),
    ("vcenter_user", .s vcUser),
    ("vcenter_pass", .s vcPass)]

/-- One record of `ip_pools`. -/
def ipPool (poolName startAddr endAddr gw cidr : String) : JVal :=
  .obj [
    ("display_name", .s poolName),
    ("pool_static_subnets", .arr [
      .obj [
        ("state", .s "present"),
        ("id", .s (poolName ++ "_subnets")),
        ("allocation_ranges", .arr [.obj [("start", .s startAddr), ("end", .s endAddr)]]),
        ("gateway_ip", .s gw),
        ("cidr", .s cidr)]])]

/-- One record of `edge_transport_nodes`; the script builds the two edge
records with identical statements differing only in these inputs. -/
def edgeTransportNode (hostSwitchName profileName : String) (pnics : List JVal)
    (ipPoolName tzName vcName vcUser vcPass cluster storage mgmtNetwork fqdn
     mgmtIp : String) (prefixLen : Int)
    (gw dataNetwork formFactor sysPassword displayName : String) : JVal :=
  .obj [
    ("host_switch_spec", .obj [
      ("resource_type", .s "StandardHostSwitchSpec"),
      ("host_switches", .arr [
        .obj [
          ("host_switch_name", .s hostSwitchName),
          ("host_switch_type", .s "NVDS"),
          ("host_switch_mode", .s "STANDARD"),
          ("host_switch_profiles", .arr [
            .obj [("name", .s profileName), ("type", .s "UplinkHostSwitchProfile")]]),
          ("pnics", .arr pnics),
          ("ip_assignment_spec", .obj [
            ("resource_type", .s "StaticIpPoolSpec"),
            ("ip_pool_name", .s ipPoolName)]),
          ("transport_zone_endpoints", .arr [
            .obj [("transport_zone_name", .s tzName)]])]])]),
    ("node_deployment_info", .obj [
      ("deployment_type", .s "VIRTUAL_MACHINE"),
      ("deployment_config", .obj [
        ("vm_deployment_config", .obj [
          ("vc_name", .s vcName),
          ("vc_username", .s vcUser),
          ("vc_password", .s vcPass),
          ("compute", .s cluster),
          ("storage", .s storage),
          ("management_network", .s mgmtNetwork),
          ("hostname", .s fqdn),
          ("management_port_subnets", .arr [
            .obj [("ip_addresses", .arr [.s mgmtIp]),
                  ("prefix_length", .i prefixLen)]]),
          ("default_gateway_addresses", .arr [.s gw]),
          ("data_networks", .arr [.s dataNetwork]),
          ("enable_ssh", .b true),
          ("allow_ssh_root_login", .b true),
          ("placement_type", .s "VsphereDeploymentConfig")]),
        ("form_factor", .s formFactor),
        ("node_user_settings", .obj [
          ("cli_username", .s "admin"),
          ("cli_password", .s sysPassword),
          ("root_password", .s sysPassword),
          ("audit_username", .s "audit"),
          ("audit_password", .s sysPassword)])]),
      ("node_settings", .obj [
        ("hostname", .s fqdn),
        ("enable_ssh", .b true),
        ("allow_ssh_root_login", .b true)]),
      ("resource_type", .s "EdgeNode"),
      ("display_name", .s displayName)]),
    ("display_name", .s displayName),
    ("resource_type", .s "TransportNode")]

/-- One `transport_node_collections` record, built per comma-separated entry
of `compute_clusters_for_prep` (the entry already stripped). -/
def tncRecord (computeManagerName tnpName cluster : String) : JVal :=
  .obj [
    ("state", .s "present"),
    ("display_name", .s ("TNP" ++ "_" ++ cluster)),
    ("description", .s ("TNP" ++ "_" ++ cluster)),
    ("resource_type", .s "TransportNodeCollection"),
    ("compute_manager_name", .s computeManagerName),
    ("cluster_name", .s cluster),
    ("transport_node_profile_name", .s tnpName)]

/-- The nested document `generate_vars_file` builds, given that every
`int(...)` conversion succeeded and the three uplink checks passed.
`d`/`c` look values up in the parsed defaults/config dicts, `u` is the
switch identifier returned by `get_vds_uuid`, `n1`/`n2`/`nh` are the parsed
uplink counts and `p1`/`p2` the parsed management netmask prefixes.
When the two vCenter FQDNs coincide the script overwrites
`defaults["nsx_vcenter"]` with `defaults["compute_manager_name"]` before the
edge records read it (`nsxVcenter2` below); the `additional_nodes` records
were built earlier and read the original value. -/
def buildDoc (d c : String → String) (u : String) (n1 p1 n2 p2 nh : Int) : JVal :=
  let nsxVcenter2 :=
    if c "nsx_vcenter_fqdn" ≠ c "vcenter_fqdn" then d "nsx_vcenter"
    else d "compute_manager_name"
  .obj [
    ("state", .s "present"),
    ("nsx_username", .s (d "nsx_username")),
    ("nsx_password", .s (c "nsx_password")),
    ("validate_certs", .s "False"),
    ("nsx_ova_path", .s (c "nsx_ova_path")),
    ("nsx_ova", .s (c "nsx_ova")),
    ("domain", .s (c "domain")),
    ("netmask", .s (c "netmask")),
    ("gateway", .s (c "gateway")),
    ("dns_server", .s (c "dns_server")),
    ("ntp_server", .s (c "ntp_server")),
    ("nsx_vcenter_fqdn", .s (c "nsx_vcenter_fqdn")),
    ("nsx_vcenter_username", .s (c "nsx_vcenter_username")),
    ("nsx_vcenter_password", .s (c "nsx_vcenter_password")),
    ("nsx_node1", .obj [
      ("hostname", .s (c "node1_hostname")),
      ("mgmt_ip", .s (c "node1_mgmt_ip")),
      ("datacenter", .s (c "node1_datacenter")),
      ("cluster", .s (c "node1_cluster")),
      ("datastore", .s (c "node1_datastore")),
      ("portgroup", .s (c "node1_portgroup"))]),
    ("additional_nodes", .arr [
      additionalNode (c "node2_hostname") (c "node2_mgmt_ip") (c "node2_netmask_prefix")
        (c "node2_datacenter") (c "node2_cluster") (c "node2_datastore")
        (c "node2_portgroup") (d "nsx_vcenter") (c "nsx_vcenter_username")
        (c "nsx_vcenter_password"),
      additionalNode (c "node3_hostname") (c "node3_mgmt_ip") (c "node3_netmask_prefix")
        (c "node3_datacenter") (c "node3_cluster") (c "node3_datastore")
        (c "node3_portgroup") (d "nsx_vcenter") (c "nsx_vcenter_username")
        (c "nsx_vcenter_password")]),
    ("compute_managers", .arr (
      .obj [
        ("display_name", .s (d "compute_manager_name")),
        ("mgmt_ip", .s (c "vcenter_fqdn")),
        ("origin_type", .s "vCenter"),
        ("credential_type", .s "UsernamePasswordLoginCredential"),
        ("username", .s (c "vcenter_username")),
        ("password", .s (c "vcenter_password")),
        ("set_as_oidc_provider", .s "true")] ::
      (if c "nsx_vcenter_fqdn" ≠ c "vcenter_fqdn" then
        [.obj [
          ("display_name", .s (d "nsx_vcenter")),
          ("mgmt_ip", .s (c "nsx_vcenter_fqdn")),
          ("origin_type", .s "vCenter"),
          ("credential_type", .s "UsernamePasswordLoginCredential"),
          ("username", .s (c "nsx_vcenter_username")),
          ("password", .s (c "nsx_vcenter_password")),
          ("set_as_oidc_provider", .s "false")]]
      else []))),
    ("nsxt_licenses", .arr [.obj [("license_key", .s (c "nsx_license_key"))]]),
    ("transport_zones", .arr [
      .obj [("display_name", .s (d "overlay_tz_name")), ("transport_type", .s "OVERLAY")],
      .obj [("display_name", .s (d "vlan_tz_name")), ("transport_type", .s "VLAN")]]),
    ("ip_pools", .arr [
      ipPool (d "ip_pool_1_name") (c "ip_pool_1_start") (c "ip_pool_1_end")
        (c "ip_pool_1_gateway") (c "ip_pool_1_cidr"),
      ipPool (d "ip_pool_2_name") (c "ip_pool_2_start") (c "ip_pool_2_end")
        (c "ip_pool_2_gateway") (c "ip_pool_2_cidr")]),
    ("edge_transport_nodes", .arr [
      edgeTransportNode (d "edge1_host_switch_name") (c "edge1_host_switch_profile_name")
        (edgePnics n1) (d "ip_pool_1_name") (d "overlay_tz_name") nsxVcenter2
        (c "nsx_vcenter_username") (c "nsx_vcenter_password") (c "edge1_cluster")
        (c "edge1_storage") (c "edge1_mgmt_network") (c "edge1_fqdn") (c "edge1_mgmt_ip")
        p1 (c "edge1_default_gateway") (c "edge2_data_network") (d "edge_form_factor")
        (c "edge1_system_password") (d "edge1_display_name"),
      edgeTransportNode (d "edge2_host_switch_name") (c "edge2_host_switch_profile_name")
        (edgePnics n2) (d "ip_pool_1_name") (d "overlay_tz_name") nsxVcenter2
        (c "nsx_vcenter_username") (c "nsx_vcenter_password") (c "edge2_cluster")
        (c "edge2_storage") (c "edge2_mgmt_network") (c "edge2_fqdn") (c "edge2_mgmt_ip")
        p2 (c "edge2_default_gateway") (c "edge2_data_network") (d "edge_form_factor")
        (c "edge2_system_password") (d "edge2_display_name")]),
    ("edge_clusters", .arr [
      .obj [
        ("display_name", .s (d "edge_cluster_display_name")),
        ("cluster_profile_bindings", .arr [
          .obj [("profile_name", .s "nsx-default-edge-high-availability-profile")]]),
        ("members", .arr [
          .obj [("transport_node_name", .s (d "edge1_display_name"))],
          .obj [("transport_node_name", .s (d "edge2_display_name"))]])]]),
    ("tier0_gateways", .arr [
      .obj [
        ("display_name", .s (d "tier0_display_name")),
        ("ha_mode", .s "ACTIVE_STANDBY"),
        ("locale_services", .arr [
          .obj [
            ("state", .s "present"),
            ("id", .s (d "tier0_display_name" ++ "_service")),
            ("route_redistribution_types", .arr [.s "TIER0_STATIC", .s "TIER0_NAT"]),
            ("edge_cluster_info", .obj [
              ("edge_cluster_display_name", .s (d "edge_cluster_display_name"))]),
            ("BGP", .obj [
              ("state", .s "present"),
              ("local_as_num", .s "1121")])]])]]),
    ("host_switch_profiles", .arr [
      .obj [
        ("display_name", .s (d "host_switch_profile_name")),
        ("resource_type", .s "UplinkHostSwitchProfile"),
        ("mtu", .s (c "host_switch_mtu")),
        ("teaming", .obj [
          ("standby_list", .arr []),
          ("active_list", .arr [
            .obj [("uplink_name", .s (d "host_switch_uplink1_name")),
                  ("uplink_type", .s "PNIC")],
            .obj [("uplink_name", .s (d "host_switch_uplink2_name")),
                  ("uplink_type", .s "PNIC")]]),
          ("policy", .s (d "host_switch_teaming_policy"))]),
        ("transport_vlan", .s (c "transport_vlan"))]]),
    ("transport_node_profiles", .arr [
      .obj [
        ("resource_type", .s "TransportNodeProfile"),
        ("display_name", .s (d "host_tnp_display_name")),
        ("host_switch_spec", .obj [
          ("host_switches", .arr [
            .obj [
              ("host_switch_id", .s u),
              ("host_switch_type", .s "VDS"),
              ("host_switch_mode", .s "STANDARD"),
              ("host_switch_profiles", .arr [
                .obj [("type", .s "UplinkHostSwitchProfile"),
                      ("name", .s (d "host_default_host_switch_profile"))]]),
              ("pnics", .arr []),
              ("uplinks", .arr (hostUplinks nh)),
              ("ip_assignment_spec", .obj [
                ("resource_type", .s "StaticIpPoolSpec"),
                ("ip_pool_name", .s (d "ip_pool_2_name"))]),
              ("transport_zone_endpoints", .arr [
                .obj [("transport_zone_name", .s (d "overlay_tz_name"))]])]]),
          ("resource_type", .s "StandardHostSwitchSpec")]),
        ("description", .s (d "host_tnp_display_name"))]]),
    ("transport_node_collections", .arr (
      (pySplit (c "compute_clusters_for_prep") ',').map (fun cl =>
        tncRecord (d "compute_manager_name") (d "host_tnp_display_name") (pyStrip cl))))]

/-- The core of `generate_vars_file` over the two parsed datasets (as total lookup
functions) and the switch identifier: the fallible steps — the `int(...)`
conversions and the three uplink checks — in source order, then the pure
document construction.  `.ok doc` means the file is written with `doc`;
`.error` means the program stops first and nothing is written. -/
def genDoc (d c : String → String) (u : String) : Except GenErr JVal :=
  match pyInt (c "edge1_number_of_uplinks") with
  | none => .error .valueError
  | some n1 =>
    if n1 > 2 then .error (.exit 2)
    else
      match pyInt (c "edge1_mgmt_netmask_prefix") with
      | none => .error .valueError
      | some p1 =>
        match pyInt (c "edge2_number_of_uplinks") with
        | none => .error .valueError
        | some n2 =>
          if n2 > 2 then .error (.exit 2)
          else
            match pyInt (c "edge2_mgmt_netmask_prefix") with
            | none => .error .valueError
            | some p2 =>
              match pyInt (c "host_number_of_uplinks") with
              | none => .error .valueError
              | some nh =>
                if nh > 2 then .error (.exit 2)
                else .ok (buildDoc d c u n1 p1 n2 p2 nh)

/-- The config keys `generate_vars_file` looks up (the four arguments of the
`get_vds_uuid` call included). -/
def usedConfigKeys : List String :=
  ["nsx_password", "nsx_ova_path", "nsx_ova", "domain", "netmask", "gateway",
   "dns_server", "ntp_server", "nsx_vcenter_fqdn", "nsx_vcenter_username",
   "nsx_vcenter_password",
   "node1_hostname", "node1_mgmt_ip", "node1_datacenter", "node1_cluster",
   "node1_datastore", "node1_portgroup",
   "node2_hostname", "node2_mgmt_ip", "node2_netmask_prefix", "node2_datacenter",
   "node2_cluster", "node2_datastore", "node2_portgroup",
   "node3_hostname", "node3_mgmt_ip", "node3_netmask_prefix", "node3_datacenter",
   "node3_cluster", "node3_datastore", "node3_portgroup",
   "vcenter_fqdn", "vcenter_username", "vcenter_password",
   "nsx_license_key",
   "ip_pool_1_start", "ip_pool_1_end", "ip_pool_1_gateway", "ip_pool_1_cidr",
   "ip_pool_2_start", "ip_pool_2_end", "ip_pool_2_gateway", "ip_pool_2_cidr",
   "edge1_host_switch_profile_name", "edge1_number_of_uplinks", "edge1_cluster",
   "edge1_storage", "edge1_mgmt_network", "edge1_mgmt_ip",
   "edge1_mgmt_netmask_prefix", "edge1_default_gateway", "edge1_fqdn",
   "edge1_system_password",
   "edge2_host_switch_profile_name", "edge2_number_of_uplinks", "edge2_cluster",
   "edge2_storage", "edge2_mgmt_network", "edge2_mgmt_ip",
   "edge2_mgmt_netmask_prefix", "edge2_default_gateway", "edge2_fqdn",
   "edge2_data_network", "edge2_system_password",
   "host_switch_mtu", "transport_vlan", "host_vds_name",
   "host_number_of_uplinks", "compute_clusters_for_prep"]

/-- The defaults keys `generate_vars_file` looks up. -/
def usedDefaultKeys : List String :=
  ["nsx_username", "nsx_vcenter", "compute_manager_name", "overlay_tz_name",
   "vlan_tz_name", "ip_pool_1_name", "ip_pool_2_name", "edge_form_factor",
   "edge1_host_switch_name", "edge1_display_name", "edge2_host_switch_name",
   "edge2_display_name", "edge_cluster_display_name", "tier0_display_name",
   "host_switch_profile_name", "host_switch_uplink1_name",
   "host_switch_uplink2_name", "host_switch_teaming_policy",
   "host_tnp_display_name", "host_default_host_switch_profile"]

/-- How a full run of `generate_vars_file` on the two files can stop before
writing: a malformed line (`IndexError` in `txt_to_json`), a missing key
(`KeyError`), a `ValueError` from `int(...)`, or `sys.exit`. -/
inductive RunErr where
  | parseError
  | keyError
  | valueError
  | exit (code : Nat)
deriving DecidableEq

/-- Python `d[k]` once the key is known to be present (`""` is never
returned on the keys checked present). -/
def dictGetD (m : List (String × String)) (k : String) : String :=
  (dictGet? m k).getD ""

/-- The full `generate_vars_file` as a function of the defaults-file contents, the
config-file contents and the switch identifier returned by `get_vds_uuid`:
parse both files with `txt_to_json`, fail with `KeyError` when a consulted
key is missing, and otherwise build the document. -/
def generate_vars_file (dtxt ctxt u : String) : Except RunErr JVal :=
  match txt_to_json dtxt, txt_to_json ctxt with
  | some dd, some cd =>
    if usedDefaultKeys.all (fun k => (dictGet? dd k).isSome) &&
       usedConfigKeys.all (fun k => (dictGet? cd k).isSome) then
      match genDoc (dictGetD dd) (dictGetD cd) u with
      | .ok doc => .ok doc
      | .error .valueError => .error .valueError
      | .error (.exit n) => .error (.exit n)
    else .error .keyError
  | _, _ => .error .parseError

/-! ### The orchestration sequence -/

/-- Model of `run_playbook`: runs the external job (its status given by the oracle
`exec`, modelling the `os.system` result for the assembled command) and
calls `sys.exit(1)` on any nonzero status; the `wait` argument only appends
a `sleep` to the command. -/
def run_playbook (exec : String → Int) (pb : String) : Except Nat Unit :=
  if exec pb ≠ 0 then .error 1 else .ok ()

/-- Straight-line sequencing of `run_playbook` calls: returns the list of
invoked playbooks in order, and the exit code if some invocation exited. -/
def runSeq (exec : String → Int) : List String → List String × Option Nat
  | [] => ([], none)
  | pb :: rest =>
    match run_playbook exec pb with
    | .error code => ([pb], some code)
    | .ok _ =>
      let r := runSeq exec rest
      (pb :: r.1, r.2)

/-- The playbook sequence `call_ansible_to_install` submits (with the `wait`
passed to each `run_playbook` call): playbook 04 is invoked only when the
re-read config's `nsx_manager_cluster` lowercases to `"yes"` or `"y"`. -/
def pbList (c : String → String) : List (String × Nat) :=
  [("01_deploy_first_node.yml", 300),
   ("02_add_nsx_license_accept_eula.yml", 0),
   ("03_configure_compute_manager.yml", 0)] ++
  (if pyLower (c "nsx_manager_cluster") = "yes" ∨
      pyLower (c "nsx_manager_cluster") = "y" then
    [("04_deploy_second_third_node.yml", 300)]
  else []) ++
  [("05_setup_transport_zones.yml", 0),
   ("06_create_tunnel_ip_pools.yml", 0),
   ("07_create_edge_transport_nodes.yml", 300),
   ("08_setup_edge_cluster.yml", 0),
   ("09_configure_t0_gateway.yml", 0),
   ("10_create_host_switch_profile.yml", 0),
   ("11_create_transport_node_profiles.yml", 0),
   ("12_configure_nsx_on_cluster.yml", 0)]

/-- Model of `call_ansible_to_install`: invoke the playbook sequence in order,
stopping at the first failing job. -/
def call_ansible_to_install (exec : String → Int) (c : String → String) :
    List String × Option Nat :=
  runSeq exec ((pbList c).map (fun p => p.1))

/-! ### Path extraction and concrete sample inputs -/

/-- One step of a field/index path into a document. -/
def jget : Option JVal → (String ⊕ Nat) → Option JVal
  | some j, .inl k => j.getField k
  | some j, .inr n => j.getIdx n
  | none, _ => none

/-- Walk a field/index path into a document. -/
def jpath (j : JVal) (p : List (String ⊕ Nat)) : Option JVal :=
  p.foldl jget (some j)

/-- Length of an array value, when the value is an array. -/
def jlen : Option JVal → Option Nat
  | some (.arr l) => some l.length
  | _ => none

/-- A line `txt_to_json` handles without an `IndexError`: after stripping it
is empty, is a `#` comment, or contains at least one `'='`. -/
def goodLine (line : String) : Prop :=
  pyStrip line = "" ∨ startsWithHash (pyStrip line) = true ∨ '=' ∈ (pyStrip line).data

instance (line : String) : Decidable (goodLine line) :=
  inferInstanceAs (Decidable (pyStrip line = "" ∨ startsWithHash (pyStrip line) = true ∨
    '=' ∈ (pyStrip line).data))

/-- The file names of the twelve playbooks, in numeric order. -/
def allPlaybooks : List String :=
  ["01_deploy_first_node.yml",
   "02_add_nsx_license_accept_eula.yml",
   "03_configure_compute_manager.yml",
   "04_deploy_second_third_node.yml",
   "05_setup_transport_zones.yml",
   "06_create_tunnel_ip_pools.yml",
   "07_create_edge_transport_nodes.yml",
   "08_setup_edge_cluster.yml",
   "09_configure_t0_gateway.yml",
   "10_create_host_switch_profile.yml",
   "11_create_transport_node_profiles.yml",
   "12_configure_nsx_on_cluster.yml"]

/-- A sample defaults lookup (all consulted keys present). -/
def exDefaults : String → String := fun _ => "dflt"

/-- A sample configuration on which every `int(...)` conversion succeeds,
the uplink checks pass, the two vCenter FQDNs coincide, and
`nsx_manager_cluster` is `"no"`. -/
def cfgBase : String → String := fun k =>
  if k = "edge1_number_of_uplinks" then "2" else
  if k = "edge2_number_of_uplinks" then "2" else
  if k = "host_number_of_uplinks" then "2" else
  if k = "edge1_mgmt_netmask_prefix" then "24" else
  if k = "edge2_mgmt_netmask_prefix" then "24" else
  if k = "nsx_manager_cluster" then "no" else "x"

/-- A sample configuration whose `edge2_number_of_uplinks` is 3 (> 2) but
whose `edge1_mgmt_netmask_prefix` is not numeric. -/
def cfgValueErr : String → String := fun k =>
  if k = "edge1_number_of_uplinks" then "2" else
  if k = "edge1_mgmt_netmask_prefix" then "bad" else
  if k = "edge2_number_of_uplinks" then "3" else "x"

/-! ### Lemmas about `splitCh` -/

theorem splitCh_nil (sep : Char) : splitCh sep [] = [[]] := rfl

theorem splitCh_cons (sep c : Char) (cs : List Char) :
    splitCh sep (c :: cs) =
      match splitCh sep cs with
      | [] => [[]]
      | g :: gs => if c = sep then [] :: g :: gs else (c :: g) :: gs := by
  rw [splitCh]

theorem splitCh_ne_nil (sep : Char) : ∀ l : List Char, splitCh sep l ≠ []
  | [] => by simp [splitCh_nil]
  | c :: cs => by
    rw [splitCh_cons]
    cases h : splitCh sep cs with
    | nil => simp
    | cons g gs => by_cases hc : c = sep <;> simp [hc]

theorem splitCh_sep_cons (sep : Char) (l : List Char) :
    splitCh sep (sep :: l) = [] :: splitCh sep l := by
  rw [splitCh_cons]
  cases h : splitCh sep l with
  | nil => exact absurd h (splitCh_ne_nil sep l)
  | cons g gs => simp

theorem splitCh_of_not_mem {sep : Char} : ∀ {l : List Char}, sep ∉ l → splitCh sep l = [l]
  | [], _ => rfl
  | c :: cs, h => by
    have hc : c ≠ sep := fun e => h (by simp [e])
    have ih : splitCh sep cs = [cs] :=
      splitCh_of_not_mem (fun mem => h (List.mem_cons_of_mem _ mem))
    rw [splitCh_cons, ih]
    simp [hc]

theorem splitCh_append_sep {sep : Char} : ∀ (l1 l2 : List Char), sep ∉ l1 →
    splitCh sep (l1 ++ sep :: l2) = l1 :: splitCh sep l2
  | [], l2, _ => by simpa using splitCh_sep_cons sep l2
  | c :: cs, l2, h => by
    have hc : c ≠ sep := fun e => h (by simp [e])
    have ih := splitCh_append_sep cs l2 (fun mem => h (List.mem_cons_of_mem _ mem))
    rw [List.cons_append, splitCh_cons, ih]
    simp [hc]

/-! ### Lemmas about `stripCore` -/

theorem dropWhile_length_le (p : Char → Bool) : ∀ l : List Char,
    (List.dropWhile p l).length ≤ l.length
  | [] => Nat.le_refl _
  | c :: cs => by
    rw [List.dropWhile_cons]
    split
    · exact Nat.le_trans (dropWhile_length_le p cs) (Nat.le_succ _)
    · exact Nat.le_refl _

theorem dropWhile_eq_self_of_length {p : Char → Bool} : ∀ {l : List Char},
    (List.dropWhile p l).length = l.length → List.dropWhile p l = l
  | [], _ => rfl
  | c :: cs, h => by
    by_cases hp : p c
    · rw [List.dropWhile_cons_of_pos hp] at h ⊢
      have := dropWhile_length_le p cs
      simp only [List.length_cons] at h
      omega
    · exact List.dropWhile_cons_of_neg hp

theorem dropWhile_eq_self_head {p : Char → Bool} {c : Char} {l : List Char}
    (h : List.dropWhile p (c :: l) = c :: l) : p c = false := by
  by_contra hb
  have hc : p c = true := by simpa using hb
  rw [List.dropWhile_cons_of_pos hc] at h
  have hlen := congrArg List.length h
  have hle := dropWhile_length_le p l
  simp only [List.length_cons] at hlen
  omega

theorem dropWhile_eq_self_of_all {p : Char → Bool} : ∀ {l : List Char},
    (∀ x ∈ l, p x = false) → List.dropWhile p l = l
  | [], _ => rfl
  | c :: cs, h => List.dropWhile_cons_of_neg (by simp [h c (by simp)])

theorem stripCore_length_le (p : Char → Bool) (l : List Char) :
    (stripCore p l).length ≤ (List.dropWhile p l).length := by
  unfold stripCore
  rw [List.length_reverse]
  calc (List.dropWhile p (List.dropWhile p l).reverse).length
      ≤ (List.dropWhile p l).reverse.length := dropWhile_length_le p _
    _ = (List.dropWhile p l).length := List.length_reverse _

theorem dropWhile_of_stripCore_eq {p : Char → Bool} {l : List Char}
    (h : stripCore p l = l) : List.dropWhile p l = l := by
  have h1 := stripCore_length_le p l
  rw [h] at h1
  exact dropWhile_eq_self_of_length (Nat.le_antisymm (dropWhile_length_le p l) h1)

theorem reverse_dropWhile_of_stripCore_eq {p : Char → Bool} {l : List Char}
    (h : stripCore p l = l) : List.dropWhile p l.reverse = l.reverse := by
  have hd := dropWhile_of_stripCore_eq h
  have h2 : ((List.dropWhile p l.reverse).reverse : List Char) = l := by
    unfold stripCore at h
    rw [hd] at h
    exact h
  have := congrArg List.reverse h2
  simpa using this

theorem head_not_of_stripCore {p : Char → Bool} {c : Char} {t : List Char}
    (h : stripCore p (c :: t) = c :: t) : p c = false :=
  dropWhile_eq_self_head (dropWhile_of_stripCore_eq h)

theorem stripCore_eq_self {p : Char → Bool} {c d : Char} (l : List Char)
    (hc : p c = false) (hd : p d = false) :
    stripCore p (c :: (l ++ [d])) = c :: (l ++ [d]) := by
  have hc' : ¬ p c = true := by simp [hc]
  have hd' : ¬ p d = true := by simp [hd]
  unfold stripCore
  rw [List.dropWhile_cons_of_neg hc']
  rw [show (c :: (l ++ [d])).reverse = d :: (l.reverse ++ [c]) by simp]
  rw [List.dropWhile_cons_of_neg hd']
  simp

theorem stripCore_head_of_neg {p : Char → Bool} {c : Char} (l : List Char)
    (hc : p c = false) : ∃ t, stripCore p (c :: l) = c :: t := by
  unfold stripCore
  rw [List.dropWhile_cons_of_neg (by simp [hc])]
  rw [List.reverse_cons, List.dropWhile_append]
  split
  · refine ⟨[], ?_⟩
    rw [List.dropWhile_cons_of_neg (by simp [hc])]
    rfl
  · refine ⟨(List.dropWhile p l.reverse).reverse, ?_⟩
    rw [List.reverse_append]
    rfl

theorem stripCore_append_ws {l : List Char} (h : stripCore isPyWs l = l) (hl : l ≠ []) :
    stripCore isPyWs (l ++ [' ']) = l := by
  obtain ⟨c, t, rfl⟩ : ∃ c t, l = c :: t := by
    cases l with
    | nil => exact absurd rfl hl
    | cons c t => exact ⟨c, t, rfl⟩
  have hc : isPyWs c = false := head_not_of_stripCore h
  unfold stripCore
  rw [List.cons_append, List.dropWhile_cons_of_neg (by simp [hc])]
  rw [show (c :: (t ++ [' '])).reverse = ' ' :: (c :: t).reverse by simp]
  rw [List.dropWhile_cons_of_pos (by decide)]
  rw [reverse_dropWhile_of_stripCore_eq h]
  simp

theorem stripCore_value (v : List Char) :
    stripCore isPyWs (' ' :: '"' :: (v ++ ['"'])) = '"' :: (v ++ ['"']) := by
  unfold stripCore
  rw [List.dropWhile_cons_of_pos (by decide)]
  rw [List.dropWhile_cons_of_neg (by decide)]
  rw [show ('"' :: (v ++ ['"'])).reverse = '"' :: (v.reverse ++ ['"']) by simp]
  rw [List.dropWhile_cons_of_neg (by decide)]
  simp

theorem stripCore_quotes {v : List Char} (hv : '"' ∉ v) :
    stripCore (fun c => c = '"') ('"' :: (v ++ ['"'])) = v := by
  unfold stripCore
  rw [List.dropWhile_cons_of_pos (p := fun c : Char => decide (c = '"')) (by simp)]
  cases v with
  | nil => rfl
  | cons c t =>
    have hc : ¬ ((fun x : Char => decide (x = '"')) c = true) := by
      simp only [decide_eq_true_eq]
      intro e
      exact hv (by simp [e])
    rw [List.cons_append,
      List.dropWhile_cons_of_neg (p := fun x : Char => decide (x = '"')) (a := c)
        (l := t ++ ['"']) hc]
    rw [show (c :: (t ++ ['"'])).reverse = '"' :: (c :: t).reverse by simp]
    rw [List.dropWhile_cons_of_pos (p := fun c : Char => decide (c = '"')) (by simp)]
    rw [dropWhile_eq_self_of_all (by
      intro x hx
      simp only [decide_eq_false_iff_not]
      intro e
      exact hv (by simpa [e] using List.mem_reverse.mp hx))]
    simp

/-! ### Lemmas about `parseLine`, `parseLines` and `writeln` -/

theorem parseLine_blank (m : List (String × String)) : parseLine m "" = some m := rfl

theorem parseLine_comment (m : List (String × String)) (l : List Char) :
    parseLine m ⟨'#' :: l⟩ = some m := by
  obtain ⟨t, ht⟩ := stripCore_head_of_neg (p := isPyWs) (c := '#') l (by decide)
  have hp : pyStrip ⟨'#' :: l⟩ = ⟨'#' :: t⟩ := by
    unfold pyStrip
    rw [show (String.mk ('#' :: l)).data = '#' :: l from rfl, ht]
  unfold parseLine
  rw [hp]
  simp [startsWithHash]

theorem parseLines_cons (m : List (String × String)) (line : String) (rest : List String) :
    parseLines m (line :: rest) =
      match parseLine m line with
      | some m' => parseLines m' rest
      | none => none := by
  rw [parseLines]

theorem parseLines_cons_some {m m' : List (String × String)} {line : String}
    (h : parseLine m line = some m') (rest : List String) :
    parseLines m (line :: rest) = parseLines m' rest := by
  rw [parseLines_cons, h]

theorem parseLine_kv (m : List (String × String)) (k v : String)
    (hk_ne : k ≠ "") (hk_strip : pyStrip k = k) (hk_hash : startsWithHash k = false)
    (hk_eq : '=' ∉ k.data) (hv_eq : '=' ∉ v.data) (hv_q : '"' ∉ v.data) :
    parseLine m ⟨k.data ++ ' ' :: '=' :: ' ' :: '"' :: (v.data ++ ['"'])⟩ =
      some (dictSet m k v) := by
  have hkd : k.data ≠ [] := fun h => hk_ne (String.ext (by simpa using h))
  obtain ⟨kc, kt, hkck⟩ : ∃ c t, k.data = c :: t := by
    cases hd : k.data with
    | nil => exact absurd hd hkd
    | cons c t => exact ⟨c, t, rfl⟩
  have hks : stripCore isPyWs k.data = k.data := congrArg String.data hk_strip
  have hkc : isPyWs kc = false := by
    rw [hkck] at hks
    exact head_not_of_stripCore hks
  have hkh : kc ≠ '#' := by
    intro e
    have : startsWithHash k = true := by
      unfold startsWithHash
      rw [hkck, e]
      simp
    rw [hk_hash] at this
    exact Bool.false_ne_true this
  have hshape : k.data ++ ' ' :: '=' :: ' ' :: '"' :: (v.data ++ ['"']) =
      kc :: ((kt ++ ' ' :: '=' :: ' ' :: '"' :: v.data) ++ ['"']) := by
    rw [hkck]
    simp
  have hstrip : pyStrip ⟨k.data ++ ' ' :: '=' :: ' ' :: '"' :: (v.data ++ ['"'])⟩ =
      ⟨k.data ++ ' ' :: '=' :: ' ' :: '"' :: (v.data ++ ['"'])⟩ := by
    unfold pyStrip
    rw [show (String.mk (k.data ++ ' ' :: '=' :: ' ' :: '"' :: (v.data ++ ['"']))).data =
        k.data ++ ' ' :: '=' :: ' ' :: '"' :: (v.data ++ ['"']) from rfl]
    rw [hshape, stripCore_eq_self _ hkc (by decide)]
  have hhash : startsWithHash ⟨k.data ++ ' ' :: '=' :: ' ' :: '"' :: (v.data ++ ['"'])⟩ = false := by
    unfold startsWithHash
    rw [show (String.mk (k.data ++ ' ' :: '=' :: ' ' :: '"' :: (v.data ++ ['"']))).data =
        k.data ++ ' ' :: '=' :: ' ' :: '"' :: (v.data ++ ['"']) from rfl]
    rw [hshape]
    simp [hkh]
  have hne : (⟨k.data ++ ' ' :: '=' :: ' ' :: '"' :: (v.data ++ ['"'])⟩ : String) ≠ "" := by
    intro e
    have := congrArg String.data e
    rw [hshape] at this
    simp at this
  have hmem1 : '=' ∉ k.data ++ [' '] := by
    intro hm
    rcases List.mem_append.mp hm with h | h
    · exact hk_eq h
    · simp at h
  have hmem2 : '=' ∉ ' ' :: '"' :: (v.data ++ ['"']) := by
    intro hm
    rcases List.mem_cons.mp hm with h | hm
    · exact absurd h (by decide)
    rcases List.mem_cons.mp hm with h | hm
    · exact absurd h (by decide)
    rcases List.mem_append.mp hm with h | h
    · exact hv_eq h
    · simp at h
  have hsplit : splitCh '=' (k.data ++ ' ' :: '=' :: ' ' :: '"' :: (v.data ++ ['"'])) =
      (k.data ++ [' ']) :: (' ' :: '"' :: (v.data ++ ['"'])) :: [] := by
    rw [show k.data ++ ' ' :: '=' :: ' ' :: '"' :: (v.data ++ ['"']) =
        (k.data ++ [' ']) ++ '=' :: (' ' :: '"' :: (v.data ++ ['"'])) from by simp]
    rw [splitCh_append_sep _ _ hmem1, splitCh_of_not_mem hmem2]
  have hkey : stripCore isPyWs (k.data ++ [' ']) = k.data :=
    stripCore_append_ws hks hkd
  have hval : pyStripQuotes ⟨stripCore isPyWs (' ' :: '"' :: (v.data ++ ['"']))⟩ = v := by
    rw [stripCore_value]
    unfold pyStripQuotes
    rw [show (String.mk ('"' :: (v.data ++ ['"']))).data = '"' :: (v.data ++ ['"']) from rfl]
    rw [stripCore_quotes hv_q]
  unfold parseLine
  rw [hstrip, hhash]
  rw [if_neg (by simp [hne])]
  rw [show (String.mk (k.data ++ ' ' :: '=' :: ' ' :: '"' :: (v.data ++ ['"']))).data =
      k.data ++ ' ' :: '=' :: ' ' :: '"' :: (v.data ++ ['"']) from rfl]
  rw [hsplit]
  dsimp only
  rw [hkey, hval]

theorem splitLines_empty : splitLines "" = [""] := rfl

theorem splitLines_writeln (k v c rest : String) (hk_ne : k ≠ "")
    (hk_nl : '\n' ∉ k.data) (hv_nl : '\n' ∉ v.data) (hc_nl : '\n' ∉ c.data) :
    splitLines (writeln k v c "" ++ rest) =
      "" :: ⟨'#' :: ' ' :: c.data⟩ ::
        ⟨k.data ++ ' ' :: '=' :: ' ' :: '"' :: (v.data ++ ['"'])⟩ :: splitLines rest := by
  have hdata : (writeln k v c "" ++ rest).data =
      '\n' :: (('#' :: ' ' :: c.data) ++ '\n' ::
        ((k.data ++ ' ' :: '=' :: ' ' :: '"' :: (v.data ++ ['"'])) ++ '\n' :: rest.data)) := by
    unfold writeln
    rw [if_neg (by simp), if_neg hk_ne]
    simp only [String.data_append]
    simp
  have hnc : '\n' ∉ '#' :: ' ' :: c.data := by
    intro hm
    rcases List.mem_cons.mp hm with h | hm
    · exact absurd h (by decide)
    rcases List.mem_cons.mp hm with h | hm
    · exact absurd h (by decide)
    · exact hc_nl hm
  have hnkv : '\n' ∉ k.data ++ ' ' :: '=' :: ' ' :: '"' :: (v.data ++ ['"']) := by
    intro hm
    rcases List.mem_append.mp hm with h | hm
    · exact hk_nl h
    rcases List.mem_cons.mp hm with h | hm
    · exact absurd h (by decide)
    rcases List.mem_cons.mp hm with h | hm
    · exact absurd h (by decide)
    rcases List.mem_cons.mp hm with h | hm
    · exact absurd h (by decide)
    rcases List.mem_cons.mp hm with h | hm
    · exact absurd h (by decide)
    rcases List.mem_append.mp hm with h | h
    · exact hv_nl h
    · simp at h
  unfold splitLines
  rw [hdata, splitCh_sep_cons, splitCh_append_sep _ _ hnc, splitCh_append_sep _ _ hnkv]
  simp [show (⟨[]⟩ : String) = "" from rfl]

theorem parseLines_writeln (m : List (String × String)) (k v c rest : String)
    (hk_ne : k ≠ "") (hk_strip : pyStrip k = k) (hk_hash : startsWithHash k = false)
    (hk_eq : '=' ∉ k.data) (hk_nl : '\n' ∉ k.data)
    (hv_eq : '=' ∉ v.data) (hv_q : '"' ∉ v.data) (hv_nl : '\n' ∉ v.data)
    (hc_nl : '\n' ∉ c.data) :
    parseLines m (splitLines (writeln k v c "" ++ rest)) =
      parseLines (dictSet m k v) (splitLines rest) := by
  rw [splitLines_writeln k v c rest hk_ne hk_nl hv_nl hc_nl]
  rw [parseLines_cons_some (parseLine_blank m)]
  rw [parseLines_cons_some (parseLine_comment m (' ' :: c.data))]
  rw [parseLines_cons_some (parseLine_kv m k v hk_ne hk_strip hk_hash hk_eq hv_eq hv_q)]

theorem parseLines_chunk0 (m : List (String × String)) (rest : String) :
    parseLines m (splitLines (writeln "" "" "Defaults\n" "" ++ rest)) =
      parseLines m (splitLines rest) := by
  have hdata : (writeln "" "" "Defaults\n" "" ++ rest).data =
      '\n' :: (('#' :: ' ' :: "Defaults".data) ++ '\n' :: ([] ++ '\n' :: rest.data)) := by
    rw [show writeln "" "" "Defaults\n" "" = "\n# Defaults\n\n" from rfl]
    rfl
  unfold splitLines
  rw [hdata, splitCh_sep_cons, splitCh_append_sep _ _ (by decide),
    splitCh_append_sep _ _ (by decide)]
  simp only [List.map_cons, show (⟨[]⟩ : String) = "" from rfl]
  rw [parseLines_cons_some (parseLine_blank m)]
  rw [parseLines_cons_some (parseLine_comment m (' ' :: "Defaults".data))]
  rw [parseLines_cons_some (parseLine_blank m)]

theorem parseLines_writelnAll : ∀ (es : List (String × String × String))
    (m : List (String × String)),
    (∀ e ∈ es, e.1 ≠ "" ∧ pyStrip e.1 = e.1 ∧ startsWithHash e.1 = false ∧
      '=' ∉ e.1.data ∧ '\n' ∉ e.1.data ∧ '=' ∉ e.2.1.data ∧ '"' ∉ e.2.1.data ∧
      '\n' ∉ e.2.1.data ∧ '\n' ∉ e.2.2.data) →
    parseLines m (splitLines (writelnAll es)) =
      some (es.foldl (fun acc e => dictSet acc e.1 e.2.1) m)
  | [], _, _ => rfl
  | e :: es, m, h => by
    obtain ⟨h1, h2, h3, h4, h5, h6, h7, h8, h9⟩ := h e (by simp)
    rw [show writelnAll (e :: es) = writeln e.1 e.2.1 e.2.2 "" ++ writelnAll es from
      by rw [writelnAll]]
    rw [parseLines_writeln m e.1 e.2.1 e.2.2 _ h1 h2 h3 h4 h5 h6 h7 h8 h9]
    rw [parseLines_writelnAll es (dictSet m e.1 e.2.1)
      (fun x hx => h x (List.mem_cons_of_mem _ hx))]
    rfl

/-- Parsing the defaults file written by `reset_defaults` recovers exactly the
written key-value pairs, in order. -/
theorem txt_to_json_reset_defaults :
    txt_to_json reset_defaults = some defaultPairs := by
  unfold txt_to_json reset_defaults
  rw [parseLines_chunk0 [] (writelnAll defaultEntries)]
  rw [parseLines_writelnAll defaultEntries [] (by decide)]
  rfl

/-! ### Inversion of `genDoc` -/

theorem genDoc_ok_iff {d c : String → String} {u : String} {doc : JVal} :
    genDoc d c u = .ok doc ↔ ∃ n1 p1 n2 p2 nh : Int,
      pyInt (c "edge1_number_of_uplinks") = some n1 ∧ n1 ≤ 2 ∧
      pyInt (c "edge1_mgmt_netmask_prefix") = some p1 ∧
      pyInt (c "edge2_number_of_uplinks") = some n2 ∧ n2 ≤ 2 ∧
      pyInt (c "edge2_mgmt_netmask_prefix") = some p2 ∧
      pyInt (c "host_number_of_uplinks") = some nh ∧ nh ≤ 2 ∧
      doc = buildDoc d c u n1 p1 n2 p2 nh := by
  constructor
  · intro h
    unfold genDoc at h
    cases h1 : pyInt (c "edge1_number_of_uplinks") with
    | none => rw [h1] at h; simp at h
    | some n1 =>
    rw [h1] at h
    simp only at h
    by_cases hg1 : n1 > 2
    · rw [if_pos hg1] at h; simp at h
    rw [if_neg hg1] at h
    cases hp1 : pyInt (c "edge1_mgmt_netmask_prefix") with
    | none => rw [hp1] at h; simp at h
    | some p1 =>
    rw [hp1] at h
    simp only at h
    cases h2 : pyInt (c "edge2_number_of_uplinks") with
    | none => rw [h2] at h; simp at h
    | some n2 =>
    rw [h2] at h
    simp only at h
    by_cases hg2 : n2 > 2
    · rw [if_pos hg2] at h; simp at h
    rw [if_neg hg2] at h
    cases hp2 : pyInt (c "edge2_mgmt_netmask_prefix") with
    | none => rw [hp2] at h; simp at h
    | some p2 =>
    rw [hp2] at h
    simp only at h
    cases h3 : pyInt (c "host_number_of_uplinks") with
    | none => rw [h3] at h; simp at h
    | some nh =>
    rw [h3] at h
    simp only at h
    by_cases hg3 : nh > 2
    · rw [if_pos hg3] at h; simp at h
    rw [if_neg hg3] at h
    simp only [Except.ok.injEq] at h
    exact ⟨n1, p1, n2, p2, nh, rfl, by omega, rfl, rfl, by omega, rfl, rfl, by omega, h.symm⟩
  · rintro ⟨n1, p1, n2, p2, nh, h1, hle1, hp1, h2, hle2, hp2, h3, hle3, rfl⟩
    unfold genDoc
    rw [h1]
    simp only
    rw [if_neg (by omega), hp1]
    simp only
    rw [h2]
    simp only
    rw [if_neg (by omega), hp2]
    simp only
    rw [h3]
    simp only
    rw [if_neg (by omega)]

/-! ### Further supporting lemmas -/

theorem edgePnics_length (n : Int) : (edgePnics n).length = (n - 1).toNat := by
  simp [edgePnics, pyRange]

theorem edgePnics_le_one {n : Int} (h : n ≤ 1) : edgePnics n = [] := by
  unfold edgePnics pyRange
  rw [show (n - 1).toNat = 0 by omega]
  rfl

theorem hostUplinks_length (n : Int) : (hostUplinks n).length = n.toNat := by
  simp [hostUplinks, pyRange]

theorem dictSet_nil (k v : String) : dictSet [] k v = [(k, v)] := by
  simp [dictSet]

theorem runSeq_fail (exec : String → Int) :
    ∀ (pre : List String) (pb : String) (post : List String),
    (∀ q ∈ pre, exec q = 0) → exec pb ≠ 0 →
    runSeq exec (pre ++ pb :: post) = (pre ++ [pb], some 1)
  | [], pb, post, _, hfail => by
    simp only [List.nil_append]
    rw [runSeq]
    unfold run_playbook
    rw [if_pos hfail]
  | q :: pre, pb, post, hpre, hfail => by
    have hq : exec q = 0 := hpre q (by simp)
    rw [List.cons_append, runSeq]
    unfold run_playbook
    rw [if_neg (by simp [hq])]
    simp only
    rw [runSeq_fail exec pre pb post (fun x hx => hpre x (List.mem_cons_of_mem _ hx)) hfail]
    simp

theorem runSeq_all_ok (exec : String → Int) : ∀ l : List String,
    (∀ q ∈ l, exec q = 0) → runSeq exec l = (l, none)
  | [], _ => rfl
  | q :: l, h => by
    rw [runSeq]
    unfold run_playbook
    rw [if_neg (by simp [h q (by simp)])]
    simp only
    rw [runSeq_all_ok exec l (fun x hx => h x (List.mem_cons_of_mem _ hx))]

theorem splitCh_two_of_mem {sep : Char} : ∀ {l : List Char}, sep ∈ l →
    ∃ a b r, splitCh sep l = a :: b :: r
  | [], h => absurd h (List.not_mem_nil sep)
  | ch :: cs, h => by
    by_cases hc : ch = sep
    · subst hc
      rw [splitCh_sep_cons]
      cases hs : splitCh ch cs with
      | nil => exact absurd hs (splitCh_ne_nil ch cs)
      | cons g gs => exact ⟨[], g, gs, rfl⟩
    · have hmem : sep ∈ cs := by
        rcases List.mem_cons.mp h with he | hm
        · exact absurd he.symm hc
        · exact hm
      obtain ⟨a, b2, r, hab⟩ := splitCh_two_of_mem hmem
      rw [splitCh_cons, hab]
      simp only
      rw [if_neg hc]
      exact ⟨ch :: a, b2, r, rfl⟩

theorem splitCh_head_takeWhile (sep : Char) : ∀ l : List Char,
    ∃ gs, splitCh sep l = (l.takeWhile (fun ch => !(ch = sep))) :: gs
  | [] => ⟨[], rfl⟩
  | ch :: cs => by
    obtain ⟨gs, hgs⟩ := splitCh_head_takeWhile sep cs
    by_cases hc : ch = sep
    · subst hc
      rw [splitCh_sep_cons, List.takeWhile_cons]
      exact ⟨splitCh ch cs, by simp⟩
    · rw [splitCh_cons, hgs]
      simp only
      rw [if_neg hc, List.takeWhile_cons]
      exact ⟨gs, by simp [hc]⟩

theorem parseLine_some (m : List (String × String)) (line : String)
    (hg : goodLine line) : ∃ m', parseLine m line = some m' := by
  unfold parseLine
  by_cases hcond : (startsWithHash (pyStrip line) || decide (pyStrip line = "")) = true
  · rw [if_pos hcond]
    exact ⟨m, rfl⟩
  · rw [if_neg hcond]
    have hmem : '=' ∈ (pyStrip line).data := by
      simp only [Bool.or_eq_true, decide_eq_true_eq, not_or] at hcond
      rcases hg with h | h | h
      · exact absurd h hcond.2
      · exact absurd h (by simp [hcond.1])
      · exact h
    obtain ⟨a, b2, r, hab⟩ := splitCh_two_of_mem hmem
    rw [hab]
    exact ⟨_, rfl⟩

theorem parseLine_none (m : List (String × String)) (line : String)
    (hbad : ¬ goodLine line) : parseLine m line = none := by
  unfold goodLine at hbad
  push_neg at hbad
  obtain ⟨hne, hhash, hmem⟩ := hbad
  unfold parseLine
  rw [if_neg (by simp [hne, hhash])]
  rw [splitCh_of_not_mem hmem]

theorem parseLines_some_of_good : ∀ (lines : List String) (m : List (String × String)),
    (∀ l ∈ lines, goodLine l) → ∃ mp, parseLines m lines = some mp
  | [], m, _ => ⟨m, rfl⟩
  | line :: rest, m, h => by
    obtain ⟨m', hm'⟩ := parseLine_some m line (h line (by simp))
    rw [parseLines_cons_some hm']
    exact parseLines_some_of_good rest m' (fun x hx => h x (List.mem_cons_of_mem _ hx))

theorem parseLines_none_of_bad : ∀ (lines : List String) (m : List (String × String)),
    (∃ l ∈ lines, ¬ goodLine l) → parseLines m lines = none
  | [], _, ⟨l, hl, _⟩ => absurd hl (List.not_mem_nil l)
  | line :: rest, m, ⟨l, hl, hbad⟩ => by
    rcases List.mem_cons.mp hl with he | hmem
    · rw [parseLines_cons, parseLine_none m line (he ▸ hbad)]
    · by_cases hg : goodLine line
      · obtain ⟨m', hm'⟩ := parseLine_some m line hg
        rw [parseLines_cons_some hm']
        exact parseLines_none_of_bad rest m' ⟨l, hmem, hbad⟩
      · rw [parseLines_cons, parseLine_none m line hg]

/-- The generator never consults `edge1_data_network` or `Tier0_BGP_AS_Number`:
overriding the configuration on exactly those two keys leaves the result
unchanged. -/
theorem genDoc_override (d c : String → String) (u a b : String) :
    genDoc d (fun k => if k = "edge1_data_network" then a
      else if k = "Tier0_BGP_AS_Number" then b else c k) u = genDoc d c u := by
  simp only [genDoc, buildDoc]
  simp

/-! ### Claim C2: uplink-count validation -/

/-- Claim C2, amended.  The uplink checks: the `edge1` check needs no
precondition — any parse of `edge1_number_of_uplinks` above 2 stops the run
with `sys.exit(2)`; the `edge2` and host checks fire only when every
`int(...)` conversion executed before them succeeds (the management netmask
prefixes are converted in between); and when all three uplink counts parse
to at most 2 no check exits, so the run never stops with exit status 2.
An `.error` result means the variables file is not written. -/
theorem uplink_checks (d c : String → String) (u : String) :
    (∀ n : Int, pyInt (c "edge1_number_of_uplinks") = some n → n > 2 →
      genDoc d c u = .error (.exit 2)) ∧
    (∀ n1 p1 n : Int, pyInt (c "edge1_number_of_uplinks") = some n1 → n1 ≤ 2 →
      pyInt (c "edge1_mgmt_netmask_prefix") = some p1 →
      pyInt (c "edge2_number_of_uplinks") = some n → n > 2 →
      genDoc d c u = .error (.exit 2)) ∧
    (∀ n1 p1 n2 p2 n : Int, pyInt (c "edge1_number_of_uplinks") = some n1 → n1 ≤ 2 →
      pyInt (c "edge1_mgmt_netmask_prefix") = some p1 →
      pyInt (c "edge2_number_of_uplinks") = some n2 → n2 ≤ 2 →
      pyInt (c "edge2_mgmt_netmask_prefix") = some p2 →
      pyInt (c "host_number_of_uplinks") = some n → n > 2 →
      genDoc d c u = .error (.exit 2)) ∧
    (∀ n1 n2 n3 : Int, pyInt (c "edge1_number_of_uplinks") = some n1 → n1 ≤ 2 →
      pyInt (c "edge2_number_of_uplinks") = some n2 → n2 ≤ 2 →
      pyInt (c "host_number_of_uplinks") = some n3 → n3 ≤ 2 →
      genDoc d c u ≠ .error (.exit 2)) := by
  refine ⟨?_, ?_, ?_, ?_⟩
  · intro n h1 hgt
    unfold genDoc
    rw [h1]
    simp only
    rw [if_pos hgt]
  · intro n1 p1 n h1 hle hp1 h2 hgt
    unfold genDoc
    rw [h1]
    simp only
    rw [if_neg (by omega), hp1]
    simp only
    rw [h2]
    simp only
    rw [if_pos hgt]
  · intro n1 p1 n2 p2 n h1 hle1 hp1 h2 hle2 hp2 h3 hgt
    unfold genDoc
    rw [h1]
    simp only
    rw [if_neg (by omega), hp1]
    simp only
    rw [h2]
    simp only
    rw [if_neg (by omega), hp2]
    simp only
    rw [h3]
    simp only
    rw [if_pos hgt]
  · intro n1 n2 n3 h1 hle1 h2 hle2 h3 hle3
    unfold genDoc
    rw [h1]
    simp only
    rw [if_neg (by omega)]
    cases hp1 : pyInt (c "edge1_mgmt_netmask_prefix") with
    | none => simp
    | some p1 =>
    simp only
    rw [h2]
    simp only
    rw [if_neg (by omega)]
    cases hp2 : pyInt (c "edge2_mgmt_netmask_prefix") with
    | none => simp
    | some p2 =>
    simp only
    rw [h3]
    simp only
    rw [if_neg (by omega)]
    simp

/-- Claim C2, counterexample to the claim as stated.  On a configuration
whose `edge2_number_of_uplinks` parses to 3 > 2 but whose
`edge1_mgmt_netmask_prefix` is not numeric, `generate_vars_file` stops with
a `ValueError` — not with exit status 2 as the claim requires. -/
theorem uplink_checks_counterexample :
    pyInt (cfgValueErr "edge2_number_of_uplinks") = some 3 ∧ (3 : Int) > 2 ∧
    genDoc exDefaults cfgValueErr "uuid" = .error .valueError ∧
    genDoc exDefaults cfgValueErr "uuid" ≠ .error (.exit 2) := by
  refine ⟨rfl, by norm_num, rfl, ?_⟩
  intro h
  rw [show genDoc exDefaults cfgValueErr "uuid" = .error .valueError from rfl] at h
  simp at h

/-- Claim C2, witness.  The amended theorem applied at a concrete
configuration whose `edge1_number_of_uplinks` is `"3"`. -/
theorem uplink_checks_witness :
    genDoc exDefaults (fun k => if k = "edge1_number_of_uplinks" then "3" else "2") "uuid" =
      .error (.exit 2) :=
  (uplink_checks exDefaults
    (fun k => if k = "edge1_number_of_uplinks" then "3" else "2") "uuid").1 3 rfl (by norm_num)

/-! ### Claim C8: pnics and uplinks lists -/

/-- Claim C8.  For every configuration that passes the uplink checks: an edge
transport node configured with `n` uplinks (`0 ≤ n ≤ 2`) gets a pnics list
of exactly `n - 1` entries — `n = 2` yields the single pnic named
`uplink-1`, `n ≤ 1` yields the empty list — while the host transport-node
profile configured with `n` uplinks gets an uplinks list of exactly `n`
entries. -/
theorem pnics_and_uplinks (d c : String → String) (u : String) (doc : JVal)
    (h : genDoc d c u = .ok doc) :
    (∀ n : Int, pyInt (c "edge1_number_of_uplinks") = some n → 0 ≤ n → n ≤ 2 →
      ∃ pl : List JVal,
        jpath doc [.inl "edge_transport_nodes", .inr 0, .inl "host_switch_spec",
          .inl "host_switches", .inr 0, .inl "pnics"] = some (.arr pl) ∧
        pl.length = (n - 1).toNat ∧
        (n = 2 → pl = [.obj [("device_name", .s "fp-eth0"), ("uplink_name", .s "uplink-1")]]) ∧
        (n ≤ 1 → pl = [])) ∧
    (∀ n : Int, pyInt (c "edge2_number_of_uplinks") = some n → 0 ≤ n → n ≤ 2 →
      ∃ pl : List JVal,
        jpath doc [.inl "edge_transport_nodes", .inr 1, .inl "host_switch_spec",
          .inl "host_switches", .inr 0, .inl "pnics"] = some (.arr pl) ∧
        pl.length = (n - 1).toNat ∧
        (n = 2 → pl = [.obj [("device_name", .s "fp-eth0"), ("uplink_name", .s "uplink-1")]]) ∧
        (n ≤ 1 → pl = [])) ∧
    (∀ n : Int, pyInt (c "host_number_of_uplinks") = some n → 0 ≤ n → n ≤ 2 →
      ∃ ul : List JVal,
        jpath doc [.inl "transport_node_profiles", .inr 0, .inl "host_switch_spec",
          .inl "host_switches", .inr 0, .inl "uplinks"] = some (.arr ul) ∧
        ul.length = n.toNat) := by
  obtain ⟨n1, p1, n2, p2, nh, h1, hle1, hp1, h2, hle2, hp2, h3, hle3, rfl⟩ :=
    genDoc_ok_iff.mp h
  refine ⟨?_, ?_, ?_⟩
  · intro n hn h0 hn2
    rw [h1, Option.some.injEq] at hn
    subst hn
    refine ⟨edgePnics n1, rfl, edgePnics_length n1, ?_, ?_⟩
    · intro he
      rw [he]
      rfl
    · intro hle
      exact edgePnics_le_one hle
  · intro n hn h0 hn2
    rw [h2, Option.some.injEq] at hn
    subst hn
    refine ⟨edgePnics n2, rfl, edgePnics_length n2, ?_, ?_⟩
    · intro he
      rw [he]
      rfl
    · intro hle
      exact edgePnics_le_one hle
  · intro n hn h0 hn2
    rw [h3, Option.some.injEq] at hn
    subst hn
    exact ⟨hostUplinks nh, rfl, hostUplinks_length nh⟩

/-- Claim C8, witness.  The theorem at the sample configuration (all uplink
counts `"2"`). -/
theorem pnics_and_uplinks_witness :
    ∃ pl : List JVal,
      jpath (buildDoc exDefaults cfgBase "uuid" 2 24 2 24 2)
        [.inl "edge_transport_nodes", .inr 0, .inl "host_switch_spec",
         .inl "host_switches", .inr 0, .inl "pnics"] = some (.arr pl) ∧
      pl.length = ((2 : Int) - 1).toNat ∧
      ((2 : Int) = 2 → pl = [.obj [("device_name", .s "fp-eth0"), ("uplink_name", .s "uplink-1")]]) ∧
      ((2 : Int) ≤ 1 → pl = []) :=
  (pnics_and_uplinks exDefaults cfgBase "uuid" _ rfl).1 2 rfl (by norm_num) (by norm_num)

/-! ### Claim C5: cluster-name list expansion -/

/-- Claim C5.  The `transport_node_collections` list has exactly one record per
comma-separated entry of `compute_clusters_for_prep`, in the same order; each
record's `cluster_name` is the whitespace-stripped entry, its `display_name`
and `description` are `"TNP_"` followed by that stripped name, its
`compute_manager_name` and `transport_node_profile_name` come from the
defaults, and its `state` is `"present"`. -/
theorem cluster_expansion (d c : String → String) (u : String) (doc : JVal)
    (h : genDoc d c u = .ok doc) :
    ∃ recs : List JVal,
      doc.getField "transport_node_collections" = some (.arr recs) ∧
      recs.length = (pySplit (c "compute_clusters_for_prep") ',').length ∧
      ∀ i entry, (pySplit (c "compute_clusters_for_prep") ',').get? i = some entry →
        recs.get? i = some (.obj [
          ("state", .s "present"),
          ("display_name", .s ("TNP_" ++ pyStrip entry)),
          ("description", .s ("TNP_" ++ pyStrip entry)),
          ("resource_type", .s "TransportNodeCollection"),
          ("compute_manager_name", .s (d "compute_manager_name")),
          ("cluster_name", .s (pyStrip entry)),
          ("transport_node_profile_name", .s (d "host_tnp_display_name"))]) := by
  obtain ⟨n1, p1, n2, p2, nh, h1, hle1, hp1, h2, hle2, hp2, h3, hle3, rfl⟩ :=
    genDoc_ok_iff.mp h
  refine ⟨_, rfl, by simp, ?_⟩
  intro i entry he
  rw [List.get?_map, he]
  rfl

/-- Claim C5, witness.  The theorem at the sample configuration, whose
`compute_clusters_for_prep` is `"x"` (one entry). -/
theorem cluster_expansion_witness :
    ∃ recs : List JVal,
      (buildDoc exDefaults cfgBase "uuid" 2 24 2 24 2).getField
        "transport_node_collections" = some (.arr recs) ∧
      recs.length = (pySplit (cfgBase "compute_clusters_for_prep") ',').length := by
  obtain ⟨recs, hr, hl, _⟩ := cluster_expansion exDefaults cfgBase "uuid" _ rfl
  exact ⟨recs, hr, hl⟩

/-! ### Claim C6: conditional records -/

/-- Claim C6, amended.  A second compute-manager record is included if and
only if `nsx_vcenter_fqdn` differs from `vcenter_fqdn` (when they are equal
exactly one compute-manager record is emitted); but the records for the
second and third manager nodes are always present in the generated document
regardless of the `nsx_manager_cluster` setting — that setting instead
controls whether the `04_deploy_second_third_node.yml` job is invoked during
orchestration. -/
theorem optional_records (d c : String → String) (u : String) (doc : JVal)
    (h : genDoc d c u = .ok doc) :
    (∃ cms : List JVal, doc.getField "compute_managers" = some (.arr cms) ∧
      (c "nsx_vcenter_fqdn" ≠ c "vcenter_fqdn" →
        cms.length = 2 ∧
        cms.get? 1 = some (.obj [
          ("display_name", .s (d "nsx_vcenter")),
          ("mgmt_ip", .s (c "nsx_vcenter_fqdn")),
          ("origin_type", .s "vCenter"),
          ("credential_type", .s "UsernamePasswordLoginCredential"),
          ("username", .s (c "nsx_vcenter_username")),
          ("password", .s (c "nsx_vcenter_password")),
          ("set_as_oidc_provider", .s "false")])) ∧
      (c "nsx_vcenter_fqdn" = c "vcenter_fqdn" → cms.length = 1)) ∧
    (∃ ans : List JVal, doc.getField "additional_nodes" = some (.arr ans) ∧
      ans.length = 2) ∧
    ("04_deploy_second_third_node.yml" ∈ (pbList c).map (fun q => q.1) ↔
      (pyLower (c "nsx_manager_cluster") = "yes" ∨
       pyLower (c "nsx_manager_cluster") = "y")) := by
  obtain ⟨n1, p1, n2, p2, nh, h1, hle1, hp1, h2, hle2, hp2, h3, hle3, rfl⟩ :=
    genDoc_ok_iff.mp h
  refine ⟨⟨_, rfl, ?_, ?_⟩, ⟨_, rfl, rfl⟩, ?_⟩
  · intro hne
    rw [if_pos hne]
    exact ⟨rfl, rfl⟩
  · intro heq
    rw [if_neg (by simp [heq])]
    rfl
  · by_cases hc : pyLower (c "nsx_manager_cluster") = "yes" ∨
        pyLower (c "nsx_manager_cluster") = "y"
    · simp only [pbList, if_pos hc]
      exact iff_of_true (by decide) hc
    · simp only [pbList, if_neg hc]
      exact iff_of_false (by decide) hc

/-- Claim C6, counterexample to the claim as stated.  On a configuration with
`nsx_manager_cluster = "no"` — no cluster deployment configured — the
generated document still contains both second- and third-manager-node
records (`additional_nodes` has length 2); only playbook 04 is skipped. -/
theorem optional_records_counterexample :
    pyLower (cfgBase "nsx_manager_cluster") = "no" ∧
    jlen ((genDoc exDefaults cfgBase "uuid").toOption.bind
      (fun doc => doc.getField "additional_nodes")) = some 2 ∧
    "04_deploy_second_third_node.yml" ∉ (pbList cfgBase).map (fun q => q.1) :=
  ⟨rfl, rfl, by decide⟩

/-- Claim C6, witness.  The theorem at the sample configuration, whose two
vCenter FQDNs are equal: exactly one compute-manager record. -/
theorem optional_records_witness :
    ∃ cms : List JVal,
      (buildDoc exDefaults cfgBase "uuid" 2 24 2 24 2).getField "compute_managers" =
        some (.arr cms) ∧ cms.length = 1 := by
  obtain ⟨⟨cms, hcms, _, heq⟩, _, _⟩ := optional_records exDefaults cfgBase "uuid" _ rfl
  exact ⟨cms, hcms, heq rfl⟩

/-! ### Claim C9: unused configuration inputs -/

/-- Claim C9.  The generated document does not depend on the config values
`edge1_data_network` and `Tier0_BGP_AS_Number`: two configurations that
agree everywhere else produce identical results; moreover the first edge's
`data_networks` list carries the value of `edge2_data_network` (source line
542 reads the edge2 key while building edge1) and the Tier0 gateway's BGP
`local_as_num` is the constant `"1121"`. -/
theorem unused_config_inputs (d c1 c2 : String → String) (u : String)
    (h : ∀ k, k ≠ "edge1_data_network" → k ≠ "Tier0_BGP_AS_Number" → c1 k = c2 k) :
    genDoc d c1 u = genDoc d c2 u ∧
    (∀ doc, genDoc d c1 u = .ok doc →
      jpath doc [.inl "edge_transport_nodes", .inr 0, .inl "node_deployment_info",
        .inl "deployment_config", .inl "vm_deployment_config", .inl "data_networks"] =
        some (.arr [.s (c1 "edge2_data_network")]) ∧
      jpath doc [.inl "tier0_gateways", .inr 0, .inl "locale_services", .inr 0,
        .inl "BGP", .inl "local_as_num"] = some (.s "1121")) := by
  constructor
  · have hc1 : c1 = fun k => if k = "edge1_data_network" then c1 "edge1_data_network"
        else if k = "Tier0_BGP_AS_Number" then c1 "Tier0_BGP_AS_Number" else c2 k := by
      funext k
      by_cases h1 : k = "edge1_data_network"
      · simp [h1]
      · by_cases h2 : k = "Tier0_BGP_AS_Number"
        · simp [h1, h2]
        · simp [h1, h2, h k h1 h2]
    conv_lhs => rw [hc1]
    exact genDoc_override d c2 u (c1 "edge1_data_network") (c1 "Tier0_BGP_AS_Number")
  · intro doc hdoc
    obtain ⟨n1, p1, n2, p2, nh, h1, hle1, hp1, h2, hle2, hp2, h3, hle3, rfl⟩ :=
      genDoc_ok_iff.mp hdoc
    exact ⟨rfl, rfl⟩

/-- Claim C9, witness.  The theorem at two sample configurations that differ
exactly in the two unused keys. -/
theorem unused_config_inputs_witness :
    genDoc exDefaults
      (fun k => if k = "edge1_data_network" then "A"
        else if k = "Tier0_BGP_AS_Number" then "9999" else cfgBase k) "uuid" =
    genDoc exDefaults cfgBase "uuid" :=
  (unused_config_inputs exDefaults
    (fun k => if k = "edge1_data_network" then "A"
      else if k = "Tier0_BGP_AS_Number" then "9999" else cfgBase k)
    cfgBase "uuid"
    (fun k h1 h2 => by simp [h1, h2])).1

/-! ### Claim C1: the transform is deterministic -/

/-- Claim C1.  Two runs of `generate_vars_file` with identical defaults-file
contents (as parsed), identical config-file contents (as parsed), and an
identical `get_vds_uuid` result produce the identical outcome — in
particular the identical nested document when one is written. -/
theorem generate_vars_file_deterministic (d1 d2 c1 c2 u1 u2 : String)
    (hd : txt_to_json d1 = txt_to_json d2) (hc : txt_to_json c1 = txt_to_json c2)
    (hu : u1 = u2) :
    generate_vars_file d1 c1 u1 = generate_vars_file d2 c2 u2 := by
  unfold generate_vars_file
  rw [hd, hc, hu]

/-- Claim C1, witness.  The theorem at one concrete pair of file contents. -/
theorem generate_vars_file_deterministic_witness :
    generate_vars_file "a = \"b\"\n" "x = \"y\"\n" "uuid" =
      generate_vars_file "a = \"b\"\n" "x = \"y\"\n" "uuid" :=
  generate_vars_file_deterministic _ _ _ _ _ _ rfl rfl rfl

/-! ### Claim C3: the orchestration sequence -/

/-- Claim C3, amended.  When installation is started the playbooks are
invoked in ascending numeric order, each at most once: every playbook other
than `04_deploy_second_third_node.yml` runs exactly once for every
configuration, while playbook 04 runs exactly once when the re-read config's
`nsx_manager_cluster` lowercases to `"yes"` or `"y"` and is skipped
otherwise; nothing outside the twelve playbooks is invoked, and the invoked
list is strictly ordered by position in the numeric playbook order. -/
theorem playbook_sequence (c : String → String) :
    (∀ p ∈ allPlaybooks, p ≠ "04_deploy_second_third_node.yml" →
      ((pbList c).map (fun q => q.1)).count p = 1) ∧
    (((pbList c).map (fun q => q.1)).count "04_deploy_second_third_node.yml" =
      if pyLower (c "nsx_manager_cluster") = "yes" ∨
         pyLower (c "nsx_manager_cluster") = "y" then 1 else 0) ∧
    ((pbList c).map (fun q => q.1)).Pairwise
      (fun a b => allPlaybooks.indexOf a < allPlaybooks.indexOf b) ∧
    (∀ p ∈ (pbList c).map (fun q => q.1), p ∈ allPlaybooks) := by
  by_cases hc : pyLower (c "nsx_manager_cluster") = "yes" ∨
      pyLower (c "nsx_manager_cluster") = "y"
  · simp only [pbList, if_pos hc]
    exact ⟨by decide, by decide, by decide, by decide⟩
  · simp only [pbList, if_neg hc]
    exact ⟨by decide, by decide, by decide, by decide⟩

/-- Claim C3, counterexample to the claim as stated.  With
`nsx_manager_cluster = "no"`, playbook 04 — one of the twelve — is never
invoked, so not every playbook runs exactly once. -/
theorem playbook_sequence_counterexample :
    pyLower (cfgBase "nsx_manager_cluster") = "no" ∧
    "04_deploy_second_third_node.yml" ∈ allPlaybooks ∧
    ((pbList cfgBase).map (fun q => q.1)).count "04_deploy_second_third_node.yml" = 0 :=
  ⟨rfl, by decide, by decide⟩

/-- Claim C3, witness.  The amended theorem at the sample configuration:
playbook 01 runs exactly once. -/
theorem playbook_sequence_witness :
    ((pbList cfgBase).map (fun q => q.1)).count "01_deploy_first_node.yml" = 1 :=
  (playbook_sequence cfgBase).1 "01_deploy_first_node.yml" (by decide) (by decide)

/-! ### Claim C4: no retry, no partial-failure recovery -/

/-- Claim C4.  `run_playbook` exits the program with status 1 as soon as the
external job returns a nonzero status and returns normally on zero; in the
orchestration sequence, when every job before some playbook succeeds and
that playbook's job fails, exactly the playbooks up to and including it are
invoked — the failed job is not re-invoked and no later job starts — and the
run stops with exit code 1; when every job succeeds the whole sequence runs
to completion. -/
theorem no_retry_no_recovery :
    (∀ (exec : String → Int) (pb : String),
      (exec pb ≠ 0 → run_playbook exec pb = .error 1) ∧
      (exec pb = 0 → run_playbook exec pb = .ok ())) ∧
    (∀ (exec : String → Int) (c : String → String) (pre post : List String)
        (pb : String),
      (pbList c).map (fun q => q.1) = pre ++ pb :: post →
      (∀ q ∈ pre, exec q = 0) → exec pb ≠ 0 →
      call_ansible_to_install exec c = (pre ++ [pb], some 1)) ∧
    (∀ (exec : String → Int) (c : String → String),
      (∀ q ∈ (pbList c).map (fun q => q.1), exec q = 0) →
      call_ansible_to_install exec c = ((pbList c).map (fun q => q.1), none)) := by
  refine ⟨?_, ?_, ?_⟩
  · intro exec pb
    constructor
    · intro hval
      unfold run_playbook
      rw [if_pos hval]
    · intro hval
      unfold run_playbook
      rw [if_neg (by simp [hval])]
  · intro exec c pre post pb hsplit hpre hfail
    unfold call_ansible_to_install
    rw [hsplit]
    exact runSeq_fail exec pre pb post hpre hfail
  · intro exec c hall
    unfold call_ansible_to_install
    exact runSeq_all_ok exec _ hall

/-- Claim C4, witness.  A job oracle that fails exactly on playbook 05, with
the cluster deployment enabled: the first five playbooks are invoked, the run
exits with code 1, and playbooks 06–12 never start. -/
theorem no_retry_no_recovery_witness :
    call_ansible_to_install
      (fun s => if s = "05_setup_transport_zones.yml" then 1 else 0)
      (fun _ => "yes") =
    (["01_deploy_first_node.yml", "02_add_nsx_license_accept_eula.yml",
      "03_configure_compute_manager.yml", "04_deploy_second_third_node.yml",
      "05_setup_transport_zones.yml"], some 1) :=
  no_retry_no_recovery.2.1
    (fun s => if s = "05_setup_transport_zones.yml" then 1 else 0)
    (fun _ => "yes")
    ["01_deploy_first_node.yml", "02_add_nsx_license_accept_eula.yml",
     "03_configure_compute_manager.yml", "04_deploy_second_third_node.yml"]
    ["06_create_tunnel_ip_pools.yml", "07_create_edge_transport_nodes.yml",
     "08_setup_edge_cluster.yml", "09_configure_t0_gateway.yml",
     "10_create_host_switch_profile.yml", "11_create_transport_node_profiles.yml",
     "12_configure_nsx_on_cluster.yml"]
    "05_setup_transport_zones.yml" (by decide) (by decide) (by decide)

/-! ### Claim C7: write/read round-trip -/

/-- Claim C7, amended.  A key-value line written by `writeln` parses back to
its binding provided the key is nonempty, carries no surrounding whitespace,
does not start with `#`, and contains no `'='` and no newline, the value
contains no `'='`, no `'"'`, no newline and no surrounding whitespace, and
the comment contains no newline; and parsing the whole file produced by
`reset_defaults` yields exactly the written pairs — in particular every key
`reset_defaults` writes is bound to its written value. -/
theorem writeln_roundtrip :
    (∀ k v comment : String, k ≠ "" → pyStrip k = k → startsWithHash k = false →
      '=' ∉ k.data → '\n' ∉ k.data →
      pyStrip v = v → '=' ∉ v.data → '"' ∉ v.data → '\n' ∉ v.data →
      '\n' ∉ comment.data →
      txt_to_json (writeln k v comment "") = some [(k, v)]) ∧
    txt_to_json reset_defaults = some defaultPairs ∧
    (∀ p ∈ defaultPairs,
      (txt_to_json reset_defaults).bind (fun mp => dictGet? mp p.1) = some p.2) := by
  refine ⟨?_, txt_to_json_reset_defaults, ?_⟩
  · intro k v comment hk_ne hk_strip hk_hash hk_eq hk_nl hv_strip hv_eq hv_q hv_nl hc_nl
    unfold txt_to_json
    rw [← String.append_empty (writeln k v comment "")]
    rw [parseLines_writeln [] k v comment "" hk_ne hk_strip hk_hash hk_eq hk_nl
      hv_eq hv_q hv_nl hc_nl]
    rw [dictSet_nil]
    rfl
  · intro p hp
    rw [txt_to_json_reset_defaults]
    revert hp
    revert p
    decide

/-- Claim C7, counterexample to the claim as stated.  With the nonempty key
`"#"` (and a value satisfying all the claim's conditions) the written line
starts with `#`, is skipped as a comment, and the parsed mapping is empty:
the binding is not recovered. -/
theorem writeln_roundtrip_counterexample :
    ("#" : String) ≠ "" ∧ pyStrip "x" = "x" ∧ '=' ∉ ("x" : String).data ∧
    '"' ∉ ("x" : String).data ∧
    (txt_to_json (writeln "#" "x" "comment" "")).map (fun mp => dictGet? mp "#") =
      some none :=
  ⟨by decide, rfl, by decide, by decide, rfl⟩

/-- Claim C7, witness.  The amended round-trip applied at the concrete pair
`("a", "b")`. -/
theorem writeln_roundtrip_witness :
    txt_to_json (writeln "a" "b" "comment" "") = some [("a", "b")] :=
  writeln_roundtrip.1 "a" "b" "comment" (by decide) rfl (by decide) (by decide)
    (by decide) rfl (by decide) (by decide) (by decide) (by decide)

/-! ### Claim C10: `txt_to_json` safety -/

/-- Claim C10.  `txt_to_json` is safe on well-formed input: when every line,
after stripping, is blank, a `#` comment, or contains an `'='`, parsing
succeeds (no out-of-bounds access); a non-blank, non-comment key-value line
binds the stripped text before the first `'='` to the stripped,
quote-stripped text between the first and the second `'='`; and a non-blank,
non-comment line containing no `'='` makes the whole parse fail (the
`items[1]` access raises `IndexError`). -/
theorem txt_to_json_safety :
    (∀ s : String, (∀ line ∈ splitLines s, goodLine line) →
      ∃ mp, txt_to_json s = some mp) ∧
    (∀ (m : List (String × String)) (line : String) (l1 l2 : List Char),
      (pyStrip line).data = l1 ++ '=' :: l2 → '=' ∉ l1 →
      startsWithHash (pyStrip line) = false →
      parseLine m line = some (dictSet m ⟨stripCore isPyWs l1⟩
        (pyStripQuotes ⟨stripCore isPyWs (l2.takeWhile (fun ch => !(ch = '=')))⟩))) ∧
    (∀ s line : String, line ∈ splitLines s → ¬ goodLine line →
      txt_to_json s = none) := by
  refine ⟨?_, ?_, ?_⟩
  · intro s hgood
    exact parseLines_some_of_good (splitLines s) [] hgood
  · intro m line l1 l2 hdata hl1 hhash
    have hne : ¬ (pyStrip line = "") := by
      intro e
      rw [e] at hdata
      exact absurd hdata.symm (by simp)
    unfold parseLine
    rw [if_neg (by simp [hne, hhash])]
    rw [hdata, splitCh_append_sep _ _ hl1]
    obtain ⟨gs, hgs⟩ := splitCh_head_takeWhile '=' l2
    rw [hgs]
  · intro s line hmem hbad
    exact parseLines_none_of_bad (splitLines s) [] ⟨line, hmem, hbad⟩

/-- Claim C10, witness.  The safety theorem at concrete inputs: a well-formed
two-line file parses, and the binding lemma applied to the line
`" a = \"b\" "`. -/
theorem txt_to_json_safety_witness :
    (∃ mp, txt_to_json "a=b\n# c\n" = some mp) ∧
    parseLine [] " a = \"b\" " = some (dictSet [] ⟨stripCore isPyWs ['a', ' ']⟩
      (pyStripQuotes ⟨stripCore isPyWs ((' ' :: '"' :: 'b' :: '"' :: []).takeWhile
        (fun ch => !(ch = '=')))⟩)) :=
  ⟨txt_to_json_safety.1 "a=b\n# c\n" (by decide),
   txt_to_json_safety.2.1 [] " a = \"b\" " ['a', ' '] (' ' :: '"' :: 'b' :: '"' :: [])
     (by decide) (by decide) (by decide)⟩

end NsxInstall
